import Mathlib

/-!
Shallow embedding of the magma persistence layer: the authentication
credential data tier (src/objects/auth/datatier.c) and the mail message
storage routines (src/objects/mail/store_message.c).

Byte strings are lists of naturals; a `stringer_t *` is `Option Str`
(`none` models a NULL pointer).  External collaborators (the SQL backend,
the filesystem, the codecs) are modelled by explicit environments that
carry the query results and injected failures, and every function returns,
along with its result value, the externally observable effects: the final
database rows, the final file state, and a trace of the calls it issued.
-/

namespace Magma

/-- Byte string: the contents of a `stringer_t`. -/
abbrev Str := List Nat

/-- `st_empty`: true when the stringer pointer is NULL or its length is zero. -/
def stEmpty : Option Str → Bool
  | none => true
  | some s => s.isEmpty

/-- `st_length_get` (with the NULL pointer reading as length zero; the code
only takes the length of stringers already known to be non-empty). -/
def stLen : Option Str → Nat
  | none => 0
  | some s => s.length

/-- Modelled from the spec: `STACIE_SALT_LENGTH`, the raw byte length of the
STACIE salt.  The header defining it is not under src/; the spec fixes the
transported salt at 171 modified-base64 characters, which decode to 128 bytes. -/
def STACIE_SALT_LENGTH : Nat := 128

/-- Modelled from the spec: `STACIE_TOKEN_LENGTH`, the raw byte length of the
STACIE verification token.  The spec fixes the transported verification token
at 86 modified-base64 characters, which decode to 64 bytes. -/
def STACIE_TOKEN_LENGTH : Nat := 64

/-- Modelled from the spec: `STACIE_KEY_ROUNDS_MAX`, the fixed maximum for the
bonus hash rounds.  The header defining it is not under src/; the claims only
use it symbolically, so the concrete value is immaterial. -/
def STACIE_KEY_ROUNDS_MAX : Nat := 16777216

/-- The externally visible calls an operation can issue, recorded in traces. -/
inductive Call where
  | queryUser    -- stmt_get_result on auth_get_by_userid
  | queryAddr    -- stmt_get_result on auth_get_by_address
  | openFile     -- open(2)
  | mkdirCall    -- mail_create_directory
  | writeHeader  -- write(2) of the fixed message header
  | writeBody    -- write(2) of the payload
  | fsyncCall    -- fsync(2)
  | closeFile    -- close(2)
  | unlinkFile   -- unlink(2)
  | linkFile     -- link(2)
  | tranStartC   -- tran_start
  | rollbackC    -- tran_rollback
  | commitC      -- tran_commit
  | insertC      -- mail_db_insert_message / mail_db_insert_duplicate_message
  | updateFolder -- mail_db_update_message_folder
deriving DecidableEq, Repr

/-! ## Authentication data tier (src/objects/auth/datatier.c) -/

/-- One row of the credential query result: columns 0-6 of
`auth_get_by_userid` / `auth_get_by_address`.  A NULL text column is
indistinguishable from an empty one through `res_field_length`, so the
optional columns are plain strings with `[]` standing for NULL. -/
structure AuthRow where
  usernum : Nat            -- column 0, res_field_uint64
  userid : Option Str      -- column 1, via res_field_string (none = retrieval failure)
  salt : Str               -- column 2, raw encoded salt field
  verification : Str       -- column 3, raw encoded verification field
  bonus : Nat              -- column 4, res_field_uint32
  legacy : Str             -- column 5, raw hex-encoded legacy token field
  locked : Int             -- column 6, res_field_int8
deriving DecidableEq, Repr

/-- Environment of `auth_data_fetch`: the caller-supplied username and the
database/codec collaborators.  A query result of `none` models
`stmt_get_result` returning NULL; the codec functions return `none` when the
decode fails (the C decoders return NULL). -/
structure AuthEnv where
  username : Option Str
  userQuery : Option (List AuthRow)
  addrQuery : Option (List AuthRow)
  hexDecode : Str → Option Str
  b64Decode : Str → Option Str

/-- The fields of the `auth_t` object populated by a fetch. -/
structure AuthOut where
  usernum : Nat
  username : Str
  salt : Option Str
  verification : Option Str
  bonus : Nat
  legacy : Option Str
  locked : Int
deriving DecidableEq, Repr

/-- Result of `auth_data_fetch`: the return code, the lookups issued, and the
populated record (`none` when the function failed before decoding a row). -/
structure FetchResult where
  ret : Int
  lookups : List Call
  out : Option AuthOut
deriving Repr

/-- The ASCII code of the address separator searched for by `st_search_chr`. -/
def atSym : Nat := 64

/-- The final credential exclusivity check of `auth_data_fetch`
(datatier.c lines 250-261): the legacy token and the STACIE triple must be
mutually exclusive, and whichever is present must be well formed. -/
def credCheck (out : AuthOut) : Int :=
  if stEmpty out.legacy &&
      (stEmpty out.salt || stLen out.salt != STACIE_SALT_LENGTH ||
       stEmpty out.verification || stLen out.verification != STACIE_TOKEN_LENGTH ||
       decide (out.bonus > STACIE_KEY_ROUNDS_MAX)) then
    -1
  else if !stEmpty out.legacy &&
      (stLen out.legacy != 64 || !stEmpty out.salt || !stEmpty out.verification ||
       decide (out.bonus > STACIE_KEY_ROUNDS_MAX)) then
    -1
  else
    0

/-- Row processing of `auth_data_fetch` once a result table has been obtained
(datatier.c lines 186-263): uniqueness check, row retrieval, field extraction
and NULL-safe decoding, then the credential exclusivity check. -/
def fetchRow (env : AuthEnv) (t : List AuthRow) (lks : List Call) : FetchResult :=
  if t.length != 1 then ⟨-1, lks, none⟩
  else
    match t with
    | [] => ⟨-1, lks, none⟩
    | row :: _ =>
      if row.usernum == 0 then ⟨-1, lks, none⟩
      else
        match row.userid with
        | none => ⟨-1, lks, none⟩
        | some uid =>
          let salt := if row.salt.length != 0 then env.b64Decode row.salt else none
          let verif := if row.verification.length != 0 then env.b64Decode row.verification else none
          let legacy := if row.legacy.length != 0 then env.hexDecode row.legacy else none
          let out : AuthOut :=
            ⟨row.usernum, uid, salt, verif, row.bonus, legacy, row.locked⟩
          ⟨credCheck out, lks, some out⟩

/-- `auth_data_fetch` (datatier.c lines 134-265): validates the input, looks
up by exact username, falls back to the mailbox-address lookup when the
username misses and contains the separator, then processes the single row. -/
def auth_data_fetch (env : AuthEnv) : FetchResult :=
  match env.username with
  | none => ⟨-1, [], none⟩
  | some uname =>
    if uname.isEmpty then ⟨-1, [], none⟩
    else
      match env.userQuery with
      | none => ⟨-1, [Call.queryUser], none⟩
      | some t1 =>
        if t1.length == 0 then
          if !uname.contains atSym then ⟨1, [Call.queryUser], none⟩
          else
            match env.addrQuery with
            | none => ⟨-1, [Call.queryUser, Call.queryAddr], none⟩
            | some t2 =>
              if t2.length == 0 then ⟨1, [Call.queryUser, Call.queryAddr], none⟩
              else fetchRow env t2 [Call.queryUser, Call.queryAddr]
        else fetchRow env t1 [Call.queryUser]

/-- Result of `auth_data_update_legacy`: the return code and whether the
update statement (`stmt_exec_affected`) was ever issued. -/
structure UpdateResult where
  ret : Int
  updated : Bool
deriving DecidableEq, Repr

/-- `auth_data_update_legacy` (datatier.c lines 22-79): validates the four
credential fields and the user number before issuing the single row update;
`affected` is the row count reported by the database for that statement. -/
def auth_data_update_legacy (affected : Int) (usernum : Nat)
    (legacy salt verification : Option Str) (bonus : Nat) : UpdateResult :=
  if stEmpty legacy || stLen legacy != 128 then ⟨-1, false⟩
  else if stEmpty salt || stLen salt != 171 then ⟨-1, false⟩
  else if stEmpty verification || stLen verification != 86 then ⟨-1, false⟩
  else if decide (bonus > STACIE_KEY_ROUNDS_MAX) || usernum == 0 then ⟨-1, false⟩
  else if affected != 1 then ⟨-1, true⟩
  else ⟨0, true⟩

/-- Modelled from the spec: `hex_decode_st`, the hexadecimal codec (an
out-of-scope collaborator, not under src/) used for the legacy token column;
consecutive pairs of hexadecimal digits decode to one byte each, so a valid
field of 2n hex characters decodes to n raw bytes. -/
def hexDigitVal (c : Nat) : Option Nat :=
  if 48 ≤ c ∧ c ≤ 57 then some (c - 48)
  else if 97 ≤ c ∧ c ≤ 102 then some (c - 87)
  else if 65 ≤ c ∧ c ≤ 70 then some (c - 55)
  else none

/-- Modelled from the spec: the recursive body of the hexadecimal decode. -/
def hex_decode_st : Str → Option Str
  | [] => some []
  | [_] => none
  | a :: b :: rest =>
    match hexDigitVal a, hexDigitVal b, hex_decode_st rest with
    | some x, some y, some r => some ((16 * x + y) :: r)
    | _, _, _ => none

/-! ## Mail message storage (src/objects/mail/store_message.c) -/

/-- Modelled from the spec: the first magic value of the on-disk message
header; the header defining it is not under src/, and only the fixed framing
matters to the claims, so the concrete value is immaterial. -/
def FMESSAGE_MAGIC_1 : Nat := 1

/-- Modelled from the spec: the second magic value of the on-disk header. -/
def FMESSAGE_MAGIC_2 : Nat := 2

/-- Modelled from the spec: the `COMPRESSED` storage flag bit. -/
def FMESSAGE_OPT_COMPRESSED : Nat := 1

/-- Modelled from the spec: the `ENCRYPTED` storage flag bit. -/
def FMESSAGE_OPT_ENCRYPTED : Nat := 2

/-- Little-endian byte serialization of a 32-bit word. -/
def u32bytes (n : Nat) : Str :=
  [n % 256, n / 256 % 256, n / 65536 % 256, n / 16777216 % 256]

/-- The fixed on-disk message header — magic1, magic2, reserved, flags —
written ahead of the payload. -/
def message_header (flags : Nat) : Str :=
  u32bytes FMESSAGE_MAGIC_1 ++ u32bytes FMESSAGE_MAGIC_2 ++ u32bytes 0 ++ [flags % 256]

/-- The filesystem state at the single path computed for one message id:
whether the containing directory exists, the file contents at that path
(`none` = no file), and whether the contents have been flushed to stable
storage. -/
structure FileState where
  dirExists : Bool
  file : Option Str
  flushed : Bool
deriving DecidableEq, Repr

/-- Failure-injection environment for `mail_store_message_data`: each field
decides the outcome of one external step.  `openFault1`/`openFault2` are
open failures unrelated to the missing directory (the first open also fails
whenever the directory does not exist). -/
structure DiskEnv where
  pathOk : Bool      -- mail_message_path succeeds
  openFault1 : Bool  -- injected fault on the first open
  mkdirOk : Bool     -- mail_create_directory succeeds
  openFault2 : Bool  -- injected fault on the retried open
  headerOk : Bool    -- the header write is complete (not short)
  bodyOk : Bool      -- the payload write is complete (not short)
  fsyncOk : Bool     -- fsync succeeds
  closeOk : Bool     -- close succeeds
deriving DecidableEq, Repr

/-- Result of `mail_store_message_data`: the boolean return, the final value
of `*pathptr` (paths are identified with the message number, since
`mail_message_path` is deterministic in it), the final file state, the call
trace, and whether a file descriptor was ever successfully obtained. -/
structure DiskResult where
  ok : Bool
  pathOut : Option Nat
  fs : FileState
  trace : List Call
  opened : Bool
deriving DecidableEq, Repr

/-- The write phase of `mail_store_message_data` (store_message.c lines
57-88), entered once a valid descriptor is held: header write, payload
write, fsync, close; any failure closes, unlinks the file and fails. -/
def writePhase (env : DiskEnv) (mn flags : Nat) (payload : Str)
    (fs : FileState) (tr : List Call) : DiskResult :=
  if !env.headerOk then
    ⟨false, none, ⟨fs.dirExists, none, fs.flushed⟩,
      tr ++ [Call.writeHeader, Call.closeFile, Call.unlinkFile], true⟩
  else if !env.bodyOk then
    ⟨false, none, ⟨fs.dirExists, none, fs.flushed⟩,
      tr ++ [Call.writeHeader, Call.writeBody, Call.closeFile, Call.unlinkFile], true⟩
  else if !env.fsyncOk then
    ⟨false, none, ⟨fs.dirExists, none, fs.flushed⟩,
      tr ++ [Call.writeHeader, Call.writeBody, Call.fsyncCall, Call.closeFile,
        Call.unlinkFile], true⟩
  else if !env.closeOk then
    ⟨false, none, ⟨fs.dirExists, none, true⟩,
      tr ++ [Call.writeHeader, Call.writeBody, Call.fsyncCall, Call.closeFile,
        Call.unlinkFile], true⟩
  else
    ⟨true, some mn, ⟨fs.dirExists, some (message_header flags ++ payload), true⟩,
      tr ++ [Call.writeHeader, Call.writeBody, Call.fsyncCall, Call.closeFile], true⟩

/-- `mail_store_message_data` (store_message.c lines 19-89): sets `*pathptr`
to NULL, builds the path, opens the file (creating the directory and
retrying the open once if the first open fails), then runs the write phase. -/
def mail_store_message_data (env : DiskEnv) (mn flags : Nat) (payload : Str)
    (fs0 : FileState) : DiskResult :=
  if !env.pathOk then ⟨false, none, fs0, [], false⟩
  else if fs0.dirExists && !env.openFault1 then
    writePhase env mn flags payload ⟨fs0.dirExists, some [], fs0.flushed⟩ [Call.openFile]
  else if env.mkdirOk then
    if !env.openFault2 then
      writePhase env mn flags payload ⟨true, some [], fs0.flushed⟩
        [Call.openFile, Call.mkdirCall, Call.openFile]
    else
      ⟨false, none, ⟨true, fs0.file, fs0.flushed⟩,
        [Call.openFile, Call.mkdirCall, Call.openFile], false⟩
  else
    ⟨false, none, fs0, [Call.openFile, Call.mkdirCall], false⟩

/-- One metadata row of the Messages table, as far as the claims observe it. -/
structure MsgRow where
  owner : Nat
  msgnum : Nat
  folder : Nat
deriving DecidableEq, Repr

/-- Environment of `mail_store_message`: outcomes of the payload preparation
(encryption or compression), the transaction start, the metadata insert
(`insertId = 0` models insert failure), the disk write, and the commit. -/
structure StoreEnv where
  prepOk : Bool
  tranOk : Bool
  insertId : Nat
  disk : DiskEnv
  commitOk : Bool
deriving Repr

/-- Result of `mail_store_message`: the returned id (0 on failure), the
committed database rows visible after the call, the final file state, and
the call trace (the disk trace inlined). -/
structure StoreResult where
  ret : Nat
  db : List MsgRow
  fs : FileState
  trace : List Call
deriving DecidableEq, Repr

/-- `mail_store_message` (store_message.c lines 103-181): prepare the
payload, begin a transaction, insert the metadata row, write the blob, then
commit; any mid-flight failure rolls the transaction back, and a commit
failure unlinks the blob.  The inserted row becomes visible in `db` only
after a successful commit. -/
def mail_store_message (env : StoreEnv) (db0 : List MsgRow) (fs0 : FileState)
    (usernum foldernum : Nat) (signet : Bool) (payload : Str) : StoreResult :=
  if !env.prepOk then ⟨0, db0, fs0, []⟩
  else
    let flags := if signet then FMESSAGE_OPT_ENCRYPTED else FMESSAGE_OPT_COMPRESSED
    if !env.tranOk then ⟨0, db0, fs0, [Call.tranStartC]⟩
    else if env.insertId == 0 then
      ⟨0, db0, fs0, [Call.tranStartC, Call.insertC, Call.rollbackC]⟩
    else
      let d := mail_store_message_data env.disk env.insertId flags payload fs0
      if !d.ok then
        ⟨0, db0, d.fs, [Call.tranStartC, Call.insertC] ++ d.trace ++ [Call.rollbackC]⟩
      else if !env.commitOk then
        ⟨0, db0, ⟨d.fs.dirExists, none, d.fs.flushed⟩,
          [Call.tranStartC, Call.insertC] ++ d.trace ++ [Call.commitC, Call.unlinkFile]⟩
      else
        ⟨env.insertId, db0 ++ [⟨usernum, env.insertId, foldernum⟩], d.fs,
          [Call.tranStartC, Call.insertC] ++ d.trace ++ [Call.commitC]⟩

/-- Failure-injection environment for `mail_copy_message`. -/
structure CopyEnv where
  origPathOk : Bool
  origOpenOk : Bool  -- the source blob can be opened
  tranOk : Bool
  insertId : Nat     -- id from mail_db_insert_duplicate_message, 0 on failure
  copyPathOk : Bool
  linkFault1 : Bool  -- injected fault on the first link, unrelated to the directory
  mkdirOk : Bool
  linkFault2 : Bool  -- injected fault on the retried link
  commitOk : Bool
deriving DecidableEq, Repr

/-- Result of `mail_copy_message`. -/
structure CopyResult where
  ret : Nat
  db : List MsgRow
  fs : FileState
  trace : List Call
deriving DecidableEq, Repr

/-- The commit step of `mail_copy_message` shared by both successful link
paths: a commit failure is reported but the hard link is not removed
(store_message.c lines 258-264). -/
def copyCommit (env : CopyEnv) (db0 : List MsgRow) (fs : FileState)
    (usernum foldernum : Nat) (tr : List Call) : CopyResult :=
  if !env.commitOk then ⟨0, db0, fs, tr ++ [Call.commitC]⟩
  else ⟨env.insertId, db0 ++ [⟨usernum, env.insertId, foldernum⟩], fs,
    tr ++ [Call.commitC]⟩

/-- `mail_copy_message` (store_message.c lines 195-270): verify the source
blob exists, begin a transaction, insert the duplicate row, hard-link the
new path to the source (creating the directory and retrying the link once
on failure), then commit.  `fs0` is the state at the new message's path and
`orig` the source blob contents shared by a successful link. -/
def mail_copy_message (env : CopyEnv) (db0 : List MsgRow) (fs0 : FileState)
    (orig : Str) (usernum foldernum : Nat) : CopyResult :=
  if !env.origPathOk then ⟨0, db0, fs0, []⟩
  else if !env.origOpenOk then ⟨0, db0, fs0, [Call.openFile]⟩
  else if !env.tranOk then ⟨0, db0, fs0, [Call.openFile, Call.closeFile, Call.tranStartC]⟩
  else if env.insertId == 0 then
    ⟨0, db0, fs0,
      [Call.openFile, Call.closeFile, Call.tranStartC, Call.insertC, Call.rollbackC]⟩
  else if !env.copyPathOk then
    ⟨0, db0, fs0,
      [Call.openFile, Call.closeFile, Call.tranStartC, Call.insertC, Call.rollbackC]⟩
  else if fs0.dirExists && !env.linkFault1 then
    copyCommit env db0 ⟨fs0.dirExists, some orig, fs0.flushed⟩ usernum foldernum
      [Call.openFile, Call.closeFile, Call.tranStartC, Call.insertC, Call.linkFile]
  else if env.mkdirOk then
    if !env.linkFault2 then
      copyCommit env db0 ⟨true, some orig, fs0.flushed⟩ usernum foldernum
        [Call.openFile, Call.closeFile, Call.tranStartC, Call.insertC, Call.linkFile,
          Call.mkdirCall, Call.linkFile]
    else
      ⟨0, db0, ⟨true, fs0.file, fs0.flushed⟩,
        [Call.openFile, Call.closeFile, Call.tranStartC, Call.insertC, Call.linkFile,
          Call.mkdirCall, Call.linkFile, Call.rollbackC]⟩
  else
    ⟨0, db0, fs0,
      [Call.openFile, Call.closeFile, Call.tranStartC, Call.insertC, Call.linkFile,
        Call.mkdirCall, Call.rollbackC]⟩

/-- Environment of `mail_move_message`. -/
structure MoveEnv where
  tranOk : Bool
  dbError : Bool  -- the folder-update statement itself fails at the store
  commitOk : Bool
deriving DecidableEq, Repr

/-- Result of `mail_move_message`. -/
structure MoveResult where
  ret : Int
  db : List MsgRow
  trace : List Call
deriving DecidableEq, Repr

/-- The rows the folder-update statement matches: owner, message and current
folder must all equal the supplied values. -/
def moveMatches (db : List MsgRow) (usernum msgnum source : Nat) : Nat :=
  (db.filter (fun r => r.owner == usernum && r.msgnum == msgnum && r.folder == source)).length

/-- The effect of the folder update on the rows it matches. -/
def applyMove (db : List MsgRow) (usernum msgnum source target : Nat) : List MsgRow :=
  db.map (fun r =>
    if r.owner == usernum && r.msgnum == msgnum && r.folder == source then
      ⟨r.owner, r.msgnum, target⟩
    else r)

/-- Modelled from the spec: `mail_db_update_message_folder` is not under
src/; per the spec it updates the row matching (owner, message_id,
source_folder) and reports -1 on a store error, 1 when exactly one row was
affected, and the not-found / ambiguous result 0 for any other affected-row
count. -/
def mail_db_update_message_folder (env : MoveEnv) (db : List MsgRow)
    (usernum msgnum source : Nat) : Int :=
  if env.dbError then -1
  else if moveMatches db usernum msgnum source == 1 then 1
  else 0

/-- `mail_move_message` (store_message.c lines 280-305): begin a
transaction, run the folder update, roll back and return the update's own
result when it is not 1, otherwise commit (returning -1 when the commit
fails, 1 on success).  `db` holds the committed rows visible after return. -/
def mail_move_message (env : MoveEnv) (db0 : List MsgRow)
    (usernum msgnum source target : Nat) : MoveResult :=
  if !env.tranOk then ⟨-1, db0, [Call.tranStartC]⟩
  else
    let r := mail_db_update_message_folder env db0 usernum msgnum source
    if r != 1 then ⟨r, db0, [Call.tranStartC, Call.updateFolder, Call.rollbackC]⟩
    else if !env.commitOk then
      ⟨-1, db0, [Call.tranStartC, Call.updateFolder, Call.commitC]⟩
    else
      ⟨1, applyMove db0 usernum msgnum source target,
        [Call.tranStartC, Call.updateFolder, Call.commitC]⟩



theorem fetchRow_shape (env : AuthEnv) (t : List AuthRow) (lks : List Call) :
    fetchRow env t lks = ⟨-1, lks, none⟩ ∨
    ∃ out, fetchRow env t lks = ⟨credCheck out, lks, some out⟩ := by
  unfold fetchRow
  split
  · exact Or.inl rfl
  · split
    · exact Or.inl rfl
    · split
      · exact Or.inl rfl
      · split
        · exact Or.inl rfl
        · exact Or.inr ⟨_, rfl⟩

theorem fetch_shape (env : AuthEnv) :
    ((auth_data_fetch env).out = none ∧ (auth_data_fetch env).ret ≠ 0) ∨
    ∃ out, (auth_data_fetch env).out = some out ∧
      (auth_data_fetch env).ret = credCheck out := by
  unfold auth_data_fetch
  split
  · exact Or.inl ⟨rfl, by decide⟩
  · split
    · exact Or.inl ⟨rfl, by decide⟩
    · split
      · exact Or.inl ⟨rfl, by decide⟩
      · split
        · split
          · exact Or.inl ⟨rfl, by decide⟩
          · split
            · exact Or.inl ⟨rfl, by decide⟩
            · split
              · exact Or.inl ⟨rfl, by decide⟩
              · rcases fetchRow_shape env _ [Call.queryUser, Call.queryAddr] with h | ⟨out, h⟩
                · exact Or.inl ⟨by rw [h], by rw [h]; decide⟩
                · exact Or.inr ⟨out, by rw [h], by rw [h]⟩
        · rcases fetchRow_shape env _ [Call.queryUser] with h | ⟨out, h⟩
          · exact Or.inl ⟨by rw [h], by rw [h]; decide⟩
          · exact Or.inr ⟨out, by rw [h], by rw [h]⟩

theorem credCheck_eq_zero_iff (out : AuthOut) :
    credCheck out = 0 ↔
      ((stEmpty out.legacy = false ∧ stLen out.legacy = 64 ∧ stEmpty out.salt = true ∧
          stEmpty out.verification = true ∧ out.bonus ≤ STACIE_KEY_ROUNDS_MAX) ∨
        (stEmpty out.legacy = true ∧ stEmpty out.salt = false ∧
          stLen out.salt = STACIE_SALT_LENGTH ∧ stEmpty out.verification = false ∧
          stLen out.verification = STACIE_TOKEN_LENGTH ∧
          out.bonus ≤ STACIE_KEY_ROUNDS_MAX)) := by
  unfold credCheck
  cases hleg : stEmpty out.legacy <;> cases hsalt : stEmpty out.salt <;>
    cases hver : stEmpty out.verification <;>
      simp [hleg, hsalt, hver, bne_iff_ne] <;> (try split_ifs) <;> (try simp_all) <;> omega

theorem credCheck_ne_zero (out : AuthOut) (h : credCheck out ≠ 0) : credCheck out = -1 := by
  unfold credCheck at h ⊢
  split_ifs at h ⊢ <;> simp_all

theorem credCheck_vals (out : AuthOut) : credCheck out = -1 ∨ credCheck out = 0 := by
  unfold credCheck
  split_ifs <;> simp

/-- C5 (amended): for every record that `auth_data_fetch` returns successfully
with a legacy credential, the decoded legacy token held in the returned record
is exactly 64 raw bytes (the original claim said 32; the code requires the
decoded length to be 64, matching the 128-hex-character database field). -/
theorem auth_data_fetch_legacy_token_len (env : AuthEnv) (out : AuthOut)
    (h0 : (auth_data_fetch env).ret = 0) (ho : (auth_data_fetch env).out = some out)
    (hleg : stEmpty out.legacy = false) : stLen out.legacy = 64 := by
  rcases fetch_shape env with ⟨hn, _⟩ | ⟨out', ho', hr⟩
  · rw [hn] at ho; cases ho
  · rw [ho'] at ho
    injection ho with ho
    subst ho
    rw [h0] at hr
    rcases (credCheck_eq_zero_iff _).mp hr.symm with hl | hs
    · exact hl.2.1
    · rw [hs.1] at hleg; cases hleg

def envC5 : AuthEnv :=
  { username := some [97, 108, 105, 99, 101]
    userQuery := some [⟨7, some [97, 108, 105, 99, 101], [], [], 0, List.replicate 128 97, 0⟩]
    addrQuery := some []
    hexDecode := hex_decode_st
    b64Decode := fun _ => none }

set_option maxRecDepth 8000 in
/-- C5 counterexample: a successful legacy fetch from a 128-hex-character
field whose decoded token has 64 raw bytes, not 32 as the claim states. -/
theorem auth_data_fetch_legacy_token_32_cex :
    (auth_data_fetch envC5).ret = 0 ∧
    ((auth_data_fetch envC5).out.map fun o => stLen o.legacy) = some 64 ∧
    ¬((auth_data_fetch envC5).out.map fun o => stLen o.legacy) = some 32 := by
  refine ⟨by decide, by decide, by decide⟩

set_option maxRecDepth 8000 in
/-- C5 witness: the amended length bound evaluated on the concrete
successful legacy fetch. -/
theorem auth_data_fetch_legacy_token_len_witness :
    stLen (AuthOut.legacy ⟨7, [97, 108, 105, 99, 101], none, none, 0,
      some (List.replicate 64 170), 0⟩) = 64 :=
  auth_data_fetch_legacy_token_len envC5 _ (by decide) (by decide) (by decide)

/-- C7: `auth_data_fetch` looks the input up by exact username first; when
that lookup returns zero rows and the input contains the address separator it
performs the secondary mailbox-address lookup and returns not-found (1) only
when that also yields zero rows; when the input has no separator and the
username lookup returns zero rows it returns 1 immediately with no secondary
lookup issued. -/
theorem auth_data_fetch_lookup_order (env : AuthEnv) (u : Str)
    (hu : env.username = some u) (hne : u.isEmpty = false) :
    (auth_data_fetch env).lookups.head? = some Call.queryUser ∧
    (env.userQuery = some [] → u.contains atSym = true →
      (auth_data_fetch env).lookups = [Call.queryUser, Call.queryAddr] ∧
      ((auth_data_fetch env).ret = 1 → env.addrQuery = some [])) ∧
    (env.userQuery = some [] → u.contains atSym = false →
      (auth_data_fetch env).ret = 1 ∧
      (auth_data_fetch env).lookups = [Call.queryUser]) := by
  unfold auth_data_fetch
  rw [hu]
  simp only [hne, Bool.false_eq_true, if_false]
  cases hq : env.userQuery with
  | none => exact ⟨rfl, by simp, by simp⟩
  | some t1 =>
    cases t1 with
    | cons r rs =>
      rcases fetchRow_shape env (r :: rs) [Call.queryUser] with h | ⟨out, h⟩ <;>
        simp [h]
    | nil =>
      simp only [List.length_nil]
      cases hat : u.contains atSym with
      | false =>
        simp [hat]
      | true =>
        simp only [hat, Bool.not_true, Bool.false_eq_true, if_false]
        cases ha : env.addrQuery with
        | none => simp
        | some t2 =>
          cases t2 with
          | nil => simp
          | cons r rs =>
            rcases fetchRow_shape env (r :: rs) [Call.queryUser, Call.queryAddr]
              with h | ⟨out, h⟩
            · simp [h]
            · rcases credCheck_vals out with hv | hv <;> simp [h, hv, hat]



/-- C1: `auth_data_fetch` succeeds (returns 0) only when exactly one of the two
credential forms is populated in the returned record — a legacy token with no
STACIE salt or verification, or a complete STACIE triple (salt of length
`STACIE_SALT_LENGTH`, verification of length `STACIE_TOKEN_LENGTH`, bonus
rounds at most `STACIE_KEY_ROUNDS_MAX`) with no legacy token — and whenever a
row was read but the decoded values mix the two forms or form a partial
STACIE triple, the fetch returns the error result -1. -/
theorem auth_data_fetch_credential_exclusivity (env : AuthEnv) :
    ((auth_data_fetch env).ret = 0 →
      ∃ out, (auth_data_fetch env).out = some out ∧
        ((stEmpty out.legacy = false ∧ stEmpty out.salt = true ∧
            stEmpty out.verification = true) ∨
          (stEmpty out.legacy = true ∧ stEmpty out.salt = false ∧
            stLen out.salt = STACIE_SALT_LENGTH ∧ stEmpty out.verification = false ∧
            stLen out.verification = STACIE_TOKEN_LENGTH ∧
            out.bonus ≤ STACIE_KEY_ROUNDS_MAX))) ∧
    (∀ out, (auth_data_fetch env).out = some out →
      ((stEmpty out.legacy = false ∧
          (stEmpty out.salt = false ∨ stEmpty out.verification = false)) ∨
        (stEmpty out.legacy = true ∧
          ¬(stEmpty out.salt = false ∧ stLen out.salt = STACIE_SALT_LENGTH ∧
            stEmpty out.verification = false ∧
            stLen out.verification = STACIE_TOKEN_LENGTH ∧
            out.bonus ≤ STACIE_KEY_ROUNDS_MAX))) →
      (auth_data_fetch env).ret = -1) := by
  constructor
  · intro h0
    rcases fetch_shape env with ⟨_, hr⟩ | ⟨out, ho, hr⟩
    · exact absurd h0 hr
    · refine ⟨out, ho, ?_⟩
      rw [h0] at hr
      rcases (credCheck_eq_zero_iff out).mp hr.symm with hl | hs
      · exact Or.inl ⟨hl.1, hl.2.2.1, hl.2.2.2.1⟩
      · exact Or.inr hs
  · intro out ho hbad
    rcases fetch_shape env with ⟨hn, _⟩ | ⟨out', ho', hr⟩
    · rw [hn] at ho; cases ho
    · rw [ho'] at ho
      injection ho with ho
      subst ho
      rw [hr]
      apply credCheck_ne_zero
      intro hz
      rcases (credCheck_eq_zero_iff _).mp hz with hl | hs <;>
        rcases hbad with ⟨hb1, hb2⟩ | ⟨hb1, hb2⟩ <;> simp_all

def envC1a : AuthEnv :=
  { username := some [98, 111, 98]
    userQuery := some [⟨3, some [98, 111, 98], [], [], 5, [97, 97], 0⟩]
    addrQuery := none
    hexDecode := fun _ => some (List.replicate 64 9)
    b64Decode := fun _ => none }

def envC1b : AuthEnv :=
  { username := some [98, 111, 98]
    userQuery := some [⟨3, some [98, 111, 98], [98], [], 0, [97, 97], 0⟩]
    addrQuery := none
    hexDecode := hex_decode_st
    b64Decode := fun _ => some [1, 2, 3] }

set_option maxRecDepth 2000 in
/-- C1 witness: a concrete successful legacy fetch and a concrete mixed-form
row on which the fetch returns -1. -/
theorem auth_data_fetch_credential_exclusivity_witness :
    (∃ out, (auth_data_fetch envC1a).out = some out ∧
      ((stEmpty out.legacy = false ∧ stEmpty out.salt = true ∧
          stEmpty out.verification = true) ∨
        (stEmpty out.legacy = true ∧ stEmpty out.salt = false ∧
          stLen out.salt = STACIE_SALT_LENGTH ∧ stEmpty out.verification = false ∧
          stLen out.verification = STACIE_TOKEN_LENGTH ∧
          out.bonus ≤ STACIE_KEY_ROUNDS_MAX))) ∧
    (auth_data_fetch envC1b).ret = -1 :=
  ⟨(auth_data_fetch_credential_exclusivity envC1a).1 (by decide),
    (auth_data_fetch_credential_exclusivity envC1b).2
      ⟨3, [98, 111, 98], some [1, 2, 3], none, 0, some [170], 0⟩
      (by decide) (by decide)⟩

def envC7a : AuthEnv :=
  { username := some [97, 64, 98]
    userQuery := some []
    addrQuery := some []
    hexDecode := hex_decode_st
    b64Decode := fun _ => none }

def envC7b : AuthEnv :=
  { username := some [97]
    userQuery := some []
    addrQuery := none
    hexDecode := hex_decode_st
    b64Decode := fun _ => none }

/-- C7 witness: a concrete address input falling through to the secondary
lookup, and a concrete plain username returning not-found after the single
lookup. -/
theorem auth_data_fetch_lookup_order_witness :
    (auth_data_fetch envC7a).lookups = [Call.queryUser, Call.queryAddr] ∧
    ((auth_data_fetch envC7b).ret = 1 ∧
      (auth_data_fetch envC7b).lookups = [Call.queryUser]) :=
  ⟨((auth_data_fetch_lookup_order envC7a [97, 64, 98] (by decide) (by decide)).2.1
      (by decide) (by decide)).1,
    (auth_data_fetch_lookup_order envC7b [97] (by decide) (by decide)).2.2
      (by decide) (by decide)⟩

/-- C6: `auth_data_update_legacy` rejects with -1, before issuing any
database update, every input whose legacy token is empty or not exactly 128
characters, whose salt is empty or not exactly 171 characters, whose
verification token is empty or not exactly 86 characters, or whose bonus
rounds exceed `STACIE_KEY_ROUNDS_MAX`. -/
theorem auth_data_update_legacy_rejects_invalid (affected : Int) (usernum : Nat)
    (legacy salt verification : Option Str) (bonus : Nat)
    (h : stEmpty legacy = true ∨ stLen legacy ≠ 128 ∨ stEmpty salt = true ∨
      stLen salt ≠ 171 ∨ stEmpty verification = true ∨ stLen verification ≠ 86 ∨
      bonus > STACIE_KEY_ROUNDS_MAX) :
    auth_data_update_legacy affected usernum legacy salt verification bonus =
      ⟨-1, false⟩ := by
  unfold auth_data_update_legacy
  split_ifs with h1 h2 h3 h4 h5 <;>
    first
    | rfl
    | (exfalso
       simp only [Bool.or_eq_true, bne_iff_ne, ne_eq, decide_eq_true_eq,
         Bool.not_eq_true, Bool.not_or, Bool.not_eq_true',
         beq_iff_eq] at h1 h2 h3 h4
       rcases h with h | h | h | h | h | h | h <;> simp_all)

/-- C6 witness: a 10-character legacy token is rejected with no update
issued. -/
theorem auth_data_update_legacy_rejects_invalid_witness :
    auth_data_update_legacy 1 5 (some (List.replicate 10 97))
      (some (List.replicate 171 98)) (some (List.replicate 86 99)) 3 =
      ⟨-1, false⟩ :=
  auth_data_update_legacy_rejects_invalid 1 5 _ _ _ 3 (by decide)

/-- C9: `auth_data_update_legacy` with a user id of 0 returns -1 before
issuing any database update, even when all four credential-field constraints
are satisfied. -/
theorem auth_data_update_legacy_zero_usernum (affected : Int)
    (legacy salt verification : Option Str) (bonus : Nat)
    (h1 : stEmpty legacy = false) (h2 : stLen legacy = 128)
    (h3 : stEmpty salt = false) (h4 : stLen salt = 171)
    (h5 : stEmpty verification = false) (h6 : stLen verification = 86)
    (h7 : bonus ≤ STACIE_KEY_ROUNDS_MAX) :
    auth_data_update_legacy affected 0 legacy salt verification bonus =
      ⟨-1, false⟩ := by
  unfold auth_data_update_legacy
  simp [h1, h2, h3, h4, h5, h6]

set_option maxRecDepth 2000 in
/-- C9 witness: user id 0 with fully valid credential fields is rejected
with no update issued. -/
theorem auth_data_update_legacy_zero_usernum_witness :
    auth_data_update_legacy 1 0 (some (List.replicate 128 97))
      (some (List.replicate 171 98)) (some (List.replicate 86 99)) 3 =
      ⟨-1, false⟩ :=
  auth_data_update_legacy_zero_usernum 1 _ _ _ 3 (by decide) (by decide) (by decide)
    (by decide) (by decide) (by decide) (by decide)



theorem writePhase_spec (env : DiskEnv) (mn flags : Nat) (payload : Str)
    (fs : FileState) (tr : List Call) :
    (writePhase env mn flags payload fs tr).opened = true ∧
    (writePhase env mn flags payload fs tr).trace.count Call.openFile =
      tr.count Call.openFile ∧
    (Call.commitC ∈ (writePhase env mn flags payload fs tr).trace →
      Call.commitC ∈ tr) ∧
    (writePhase env mn flags payload fs tr).pathOut =
      (if (writePhase env mn flags payload fs tr).ok then some mn else none) ∧
    ((writePhase env mn flags payload fs tr).ok = true →
      (writePhase env mn flags payload fs tr).fs =
        ⟨fs.dirExists, some (message_header flags ++ payload), true⟩) ∧
    ((writePhase env mn flags payload fs tr).ok = false →
      (writePhase env mn flags payload fs tr).fs.file = none ∧
      Call.unlinkFile ∈ (writePhase env mn flags payload fs tr).trace) := by
  unfold writePhase
  split_ifs <;>
    simp_all [List.count_append, List.mem_append]

/-- C3: the blob write is all-or-nothing — on success a complete file exists
at the computed path consisting of the fixed header followed by the payload
and flushed to stable storage, and on any failure after the file was opened
the file at the path is deleted (an unlink is issued) and the function
returns failure. -/
theorem mail_store_message_data_atomic (env : DiskEnv) (mn flags : Nat)
    (payload : Str) (fs0 : FileState) :
    ((mail_store_message_data env mn flags payload fs0).ok = true →
      (mail_store_message_data env mn flags payload fs0).fs.file =
        some (message_header flags ++ payload) ∧
      (mail_store_message_data env mn flags payload fs0).fs.flushed = true) ∧
    ((mail_store_message_data env mn flags payload fs0).opened = true →
      (mail_store_message_data env mn flags payload fs0).ok = false →
      (mail_store_message_data env mn flags payload fs0).fs.file = none ∧
      Call.unlinkFile ∈ (mail_store_message_data env mn flags payload fs0).trace) := by
  unfold mail_store_message_data
  split_ifs with h1 h2 h3 h4
  · simp
  · rcases writePhase_spec env mn flags payload ⟨fs0.dirExists, some [], fs0.flushed⟩
      [Call.openFile] with ⟨hop, _, _, _, hok, hfail⟩
    exact ⟨fun h => by rw [hok h]; exact ⟨rfl, rfl⟩, fun _ => hfail⟩
  · rcases writePhase_spec env mn flags payload ⟨true, some [], fs0.flushed⟩
      [Call.openFile, Call.mkdirCall, Call.openFile] with ⟨hop, _, _, _, hok, hfail⟩
    exact ⟨fun h => by rw [hok h]; exact ⟨rfl, rfl⟩, fun _ => hfail⟩
  · simp
  · simp

/-- C10: `mail_store_message_data` assigns the computed on-disk path to
`*pathptr` exactly when it returns true; on every failure return the caller
observes a NULL `*pathptr` (set at entry and never reassigned). -/
theorem mail_store_message_data_pathptr (env : DiskEnv) (mn flags : Nat)
    (payload : Str) (fs0 : FileState) :
    ((mail_store_message_data env mn flags payload fs0).ok = true →
      (mail_store_message_data env mn flags payload fs0).pathOut = some mn) ∧
    ((mail_store_message_data env mn flags payload fs0).ok = false →
      (mail_store_message_data env mn flags payload fs0).pathOut = none) := by
  unfold mail_store_message_data
  split_ifs with h1 h2 h3 h4
  · simp
  · obtain ⟨_, _, _, hpo, _, _⟩ := writePhase_spec env mn flags payload
      ⟨fs0.dirExists, some [], fs0.flushed⟩ [Call.openFile]
    exact ⟨fun h => by rw [h] at hpo; simpa using hpo,
      fun h => by rw [h] at hpo; simpa using hpo⟩
  · obtain ⟨_, _, _, hpo, _, _⟩ := writePhase_spec env mn flags payload
      ⟨true, some [], fs0.flushed⟩ [Call.openFile, Call.mkdirCall, Call.openFile]
    exact ⟨fun h => by rw [h] at hpo; simpa using hpo,
      fun h => by rw [h] at hpo; simpa using hpo⟩
  · simp
  · simp

theorem copyCommit_count (env : CopyEnv) (db0 : List MsgRow) (fs : FileState)
    (un fol : Nat) (tr : List Call) :
    (copyCommit env db0 fs un fol tr).trace.count Call.linkFile =
      tr.count Call.linkFile := by
  unfold copyCommit
  split_ifs <;> simp [List.count_append]

theorem copyCommit_ret (env : CopyEnv) (db0 : List MsgRow) (fs : FileState)
    (un fol : Nat) (tr : List Call) (h : env.commitOk = true) :
    (copyCommit env db0 fs un fol tr).ret = env.insertId := by
  unfold copyCommit
  simp [h]

theorem store_data_retry (env : DiskEnv) (mn flags : Nat) (payload : Str)
    (fs0 : FileState) :
    ((mail_store_message_data env mn flags payload fs0).trace.count Call.openFile ≤ 2) ∧
    ((mail_store_message_data env mn flags payload fs0).trace.count Call.openFile = 2 →
      (fs0.dirExists = false ∨ env.openFault1 = true) ∧ env.mkdirOk = true) ∧
    ((mail_store_message_data env mn flags payload fs0).trace.count Call.openFile = 2 →
      env.openFault2 = true →
      (mail_store_message_data env mn flags payload fs0).ok = false) ∧
    (env.pathOk = true → (fs0.dirExists = false ∨ env.openFault1 = true) →
      env.mkdirOk = true →
      (mail_store_message_data env mn flags payload fs0).trace.count Call.openFile = 2) := by
  have hw := fun fs tr => (writePhase_spec env mn flags payload fs tr).2.1
  unfold mail_store_message_data
  split_ifs <;> simp_all <;> cases hd : fs0.dirExists <;> simp_all

theorem copy_retry (cenv : CopyEnv) (db0 : List MsgRow) (gs0 : FileState)
    (orig : Str) (un fol : Nat) :
    ((mail_copy_message cenv db0 gs0 orig un fol).trace.count Call.linkFile ≤ 2) ∧
    ((mail_copy_message cenv db0 gs0 orig un fol).trace.count Call.linkFile = 2 →
      (gs0.dirExists = false ∨ cenv.linkFault1 = true) ∧ cenv.mkdirOk = true) ∧
    ((mail_copy_message cenv db0 gs0 orig un fol).trace.count Call.linkFile = 2 →
      cenv.linkFault2 = true →
      (mail_copy_message cenv db0 gs0 orig un fol).ret = 0) ∧
    (cenv.origPathOk = true → cenv.origOpenOk = true → cenv.tranOk = true →
      cenv.insertId ≠ 0 → cenv.copyPathOk = true →
      (gs0.dirExists = false ∨ cenv.linkFault1 = true) → cenv.mkdirOk = true →
      (mail_copy_message cenv db0 gs0 orig un fol).trace.count Call.linkFile = 2) := by
  have hc := copyCommit_count cenv db0
  unfold mail_copy_message
  split_ifs <;> simp_all <;> cases hd : gs0.dirExists <;> simp_all

/-- C4 (amended): the directory-creation-and-reopen retry in the blob write
is attempted on any initial open failure provided the directory creation
succeeds — whenever the path was built, the first open fails (missing
directory or any injected fault) and the directory creation succeeds, a
second open is issued; conversely two opens occur only after an initial
failure plus a successful directory creation — it happens exactly once
(never more than two opens), and a failure of the retried open is fatal.
The same policy governs the hard-link creation in `mail_copy_message`:
whenever the link stage is reached, the first link fails and directory
creation succeeds, a second link is issued; two links occur only then, and
a failure of the retried link is fatal.  The original claim, that the retry
happens only when the open failed purely because the directory was missing,
is refuted by the counterexample. -/
theorem retry_once_after_mkdir (env : DiskEnv) (mn flags : Nat) (payload : Str)
    (fs0 : FileState) (cenv : CopyEnv) (db0 : List MsgRow) (gs0 : FileState)
    (orig : Str) (un fol : Nat) :
    ((mail_store_message_data env mn flags payload fs0).trace.count Call.openFile ≤ 2) ∧
    ((mail_store_message_data env mn flags payload fs0).trace.count Call.openFile = 2 →
      (fs0.dirExists = false ∨ env.openFault1 = true) ∧ env.mkdirOk = true) ∧
    ((mail_store_message_data env mn flags payload fs0).trace.count Call.openFile = 2 →
      env.openFault2 = true →
      (mail_store_message_data env mn flags payload fs0).ok = false) ∧
    (env.pathOk = true → (fs0.dirExists = false ∨ env.openFault1 = true) →
      env.mkdirOk = true →
      (mail_store_message_data env mn flags payload fs0).trace.count Call.openFile = 2) ∧
    ((mail_copy_message cenv db0 gs0 orig un fol).trace.count Call.linkFile ≤ 2) ∧
    ((mail_copy_message cenv db0 gs0 orig un fol).trace.count Call.linkFile = 2 →
      (gs0.dirExists = false ∨ cenv.linkFault1 = true) ∧ cenv.mkdirOk = true) ∧
    ((mail_copy_message cenv db0 gs0 orig un fol).trace.count Call.linkFile = 2 →
      cenv.linkFault2 = true →
      (mail_copy_message cenv db0 gs0 orig un fol).ret = 0) ∧
    (cenv.origPathOk = true → cenv.origOpenOk = true → cenv.tranOk = true →
      cenv.insertId ≠ 0 → cenv.copyPathOk = true →
      (gs0.dirExists = false ∨ cenv.linkFault1 = true) → cenv.mkdirOk = true →
      (mail_copy_message cenv db0 gs0 orig un fol).trace.count Call.linkFile = 2) := by
  obtain ⟨s1, s2, s3, s4⟩ := store_data_retry env mn flags payload fs0
  obtain ⟨c1, c2, c3, c4⟩ := copy_retry cenv db0 gs0 orig un fol
  exact ⟨s1, s2, s3, s4, c1, c2, c3, c4⟩

theorem disk_no_commit (env : DiskEnv) (mn flags : Nat) (payload : Str)
    (fs0 : FileState) :
    Call.commitC ∉ (mail_store_message_data env mn flags payload fs0).trace := by
  have hw := fun fs tr => (writePhase_spec env mn flags payload fs tr).2.2.1
  unfold mail_store_message_data
  split_ifs
  · simp
  · intro hmem
    exact absurd (hw _ _ hmem) (by decide)
  · intro hmem
    exact absurd (hw _ _ hmem) (by decide)
  · simp
  · simp

theorem disk_fail_file_none (env : DiskEnv) (mn flags : Nat) (payload : Str)
    (fs0 : FileState) (h0 : fs0.file = none)
    (hok : (mail_store_message_data env mn flags payload fs0).ok = false) :
    (mail_store_message_data env mn flags payload fs0).fs.file = none := by
  have hw := fun fs tr => (writePhase_spec env mn flags payload fs tr).2.2.2.2.2
  unfold mail_store_message_data at hok ⊢
  split_ifs at hok ⊢
  · exact h0
  · exact (hw _ _ hok).1
  · exact (hw _ _ hok).1
  · exact h0
  · exact h0

/-- C2: in `mail_store_message`, when the metadata insert succeeds but the
blob write fails, the transaction is rolled back (the inserted row is not
visible in the database after return), the blob file at the new path is
absent, the function returns 0, and no commit is attempted. -/
theorem mail_store_message_rollback (env : StoreEnv) (db0 : List MsgRow)
    (fs0 : FileState) (un fol : Nat) (signet : Bool) (payload : Str)
    (hprep : env.prepOk = true) (htran : env.tranOk = true)
    (hins : env.insertId ≠ 0) (hfresh : fs0.file = none)
    (hdisk : (mail_store_message_data env.disk env.insertId
        (if signet then FMESSAGE_OPT_ENCRYPTED else FMESSAGE_OPT_COMPRESSED)
        payload fs0).ok = false) :
    (mail_store_message env db0 fs0 un fol signet payload).ret = 0 ∧
    (mail_store_message env db0 fs0 un fol signet payload).db = db0 ∧
    Call.rollbackC ∈ (mail_store_message env db0 fs0 un fol signet payload).trace ∧
    Call.commitC ∉ (mail_store_message env db0 fs0 un fol signet payload).trace ∧
    (mail_store_message env db0 fs0 un fol signet payload).fs.file = none := by
  have hnc := disk_no_commit env.disk env.insertId
    (if signet then FMESSAGE_OPT_ENCRYPTED else FMESSAGE_OPT_COMPRESSED) payload fs0
  have hfn := disk_fail_file_none env.disk env.insertId
    (if signet then FMESSAGE_OPT_ENCRYPTED else FMESSAGE_OPT_COMPRESSED) payload fs0
    hfresh hdisk
  unfold mail_store_message
  simp only [hprep, htran, Bool.not_true, Bool.false_eq_true, if_false]
  rw [if_neg (by simp [hins])]
  simp only [hdisk, Bool.not_false, if_true]
  refine ⟨by trivial, by trivial, by simp, ?_, hfn⟩
  simp [List.mem_append, hnc]

/-- C8: `mail_move_message` requires the folder update to affect exactly one
row — when the affected-row count is not 1 the transaction is rolled back,
the rows are left unchanged and the not-found result 0 is returned rather
than -1; it returns 1 only when exactly one row was affected and the commit
succeeded. -/
theorem mail_move_message_single_row (env : MoveEnv) (db0 : List MsgRow)
    (un mn src tgt : Nat) (htran : env.tranOk = true) (hdb : env.dbError = false) :
    (moveMatches db0 un mn src ≠ 1 →
      (mail_move_message env db0 un mn src tgt).ret = 0 ∧
      (mail_move_message env db0 un mn src tgt).db = db0 ∧
      Call.rollbackC ∈ (mail_move_message env db0 un mn src tgt).trace ∧
      Call.commitC ∉ (mail_move_message env db0 un mn src tgt).trace) ∧
    (moveMatches db0 un mn src = 1 → env.commitOk = true →
      (mail_move_message env db0 un mn src tgt).ret = 1 ∧
      (mail_move_message env db0 un mn src tgt).db = applyMove db0 un mn src tgt) ∧
    ((mail_move_message env db0 un mn src tgt).ret = 1 →
      moveMatches db0 un mn src = 1 ∧ env.commitOk = true) := by
  unfold mail_move_message mail_db_update_message_folder
  simp only [htran, hdb, Bool.not_true, Bool.false_eq_true, if_false]
  by_cases hm : moveMatches db0 un mn src = 1
  · cases hcm : env.commitOk <;> simp [hm, hcm]
  · simp [hm]

def diskEnvOk : DiskEnv := ⟨true, false, true, false, true, true, true, true⟩

def diskEnvHeaderFail : DiskEnv := ⟨true, false, true, false, false, true, true, true⟩

def diskEnvRetryFault : DiskEnv := ⟨true, true, true, true, true, true, true, true⟩

def fsFresh : FileState := ⟨true, none, false⟩

/-- C3 witness: a concrete successful write leaving the full flushed file,
and a concrete short header write leaving no file and an unlink in the
trace. -/
theorem mail_store_message_data_atomic_witness :
    ((mail_store_message_data diskEnvOk 3 1 [5] fsFresh).fs.file =
        some (message_header 1 ++ [5]) ∧
      (mail_store_message_data diskEnvOk 3 1 [5] fsFresh).fs.flushed = true) ∧
    ((mail_store_message_data diskEnvHeaderFail 3 1 [5] fsFresh).fs.file = none ∧
      Call.unlinkFile ∈ (mail_store_message_data diskEnvHeaderFail 3 1 [5] fsFresh).trace) :=
  ⟨(mail_store_message_data_atomic diskEnvOk 3 1 [5] fsFresh).1 (by decide),
    (mail_store_message_data_atomic diskEnvHeaderFail 3 1 [5] fsFresh).2
      (by decide) (by decide)⟩

/-- C10 witness: the path out-parameter on a concrete success and a concrete
failure. -/
theorem mail_store_message_data_pathptr_witness :
    (mail_store_message_data diskEnvOk 3 1 [5] fsFresh).pathOut = some 3 ∧
    (mail_store_message_data diskEnvHeaderFail 3 1 [5] fsFresh).pathOut = none :=
  ⟨(mail_store_message_data_pathptr diskEnvOk 3 1 [5] fsFresh).1 (by decide),
    (mail_store_message_data_pathptr diskEnvHeaderFail 3 1 [5] fsFresh).2 (by decide)⟩

/-- C4 counterexample: the first open fails while the directory exists
(an unrelated injected fault), yet the mkdir-and-reopen retry is still
attempted — two opens are issued — refuting that the retry happens only
when the open failed purely because the directory was missing. -/
theorem retry_on_unrelated_open_failure_cex :
    (mail_store_message_data ⟨true, true, true, false, true, true, true, true⟩
        4 1 [8] fsFresh).trace.count Call.openFile = 2 ∧
    fsFresh.dirExists = true ∧
    (mail_store_message_data ⟨true, true, true, false, true, true, true, true⟩
        4 1 [8] fsFresh).ok = true := by
  refine ⟨by decide, by decide, by decide⟩

def copyEnvRetryFault : CopyEnv :=
  ⟨true, true, true, 9, true, true, true, true, true⟩

/-- C4 witness: with the directory present and an unrelated fault injected on
the first open and on the first link, the retry is attempted (two opens and
two links are issued), and the failing retried open and failing retried link
are fatal for the blob write and the copy respectively. -/
theorem retry_once_after_mkdir_witness :
    (mail_store_message_data diskEnvRetryFault 4 1 [8] fsFresh).ok = false ∧
    (mail_store_message_data diskEnvRetryFault 4 1 [8]
        fsFresh).trace.count Call.openFile = 2 ∧
    (mail_copy_message copyEnvRetryFault [] fsFresh [3] 1 2).ret = 0 ∧
    (mail_copy_message copyEnvRetryFault [] fsFresh
        [3] 1 2).trace.count Call.linkFile = 2 :=
  ⟨(retry_once_after_mkdir diskEnvRetryFault 4 1 [8] fsFresh copyEnvRetryFault []
        fsFresh [3] 1 2).2.2.1 (by decide) (by decide),
    (retry_once_after_mkdir diskEnvRetryFault 4 1 [8] fsFresh copyEnvRetryFault []
        fsFresh [3] 1 2).2.2.2.1 (by decide) (by decide) (by decide),
    (retry_once_after_mkdir diskEnvRetryFault 4 1 [8] fsFresh copyEnvRetryFault []
        fsFresh [3] 1 2).2.2.2.2.2.2.1 (by decide) (by decide),
    (retry_once_after_mkdir diskEnvRetryFault 4 1 [8] fsFresh copyEnvRetryFault []
        fsFresh [3] 1 2).2.2.2.2.2.2.2 (by decide) (by decide) (by decide)
      (by decide) (by decide) (by decide) (by decide)⟩

def storeEnvDiskFail : StoreEnv := ⟨true, true, 7, diskEnvHeaderFail, true⟩

/-- C2 witness: a concrete store whose blob write fails after a successful
insert returns 0, leaves the database unchanged and never commits. -/
theorem mail_store_message_rollback_witness :
    (mail_store_message storeEnvDiskFail [] fsFresh 1 2 false [5]).ret = 0 ∧
    (mail_store_message storeEnvDiskFail [] fsFresh 1 2 false [5]).db = [] ∧
    Call.commitC ∉ (mail_store_message storeEnvDiskFail [] fsFresh 1 2 false [5]).trace :=
  ⟨(mail_store_message_rollback storeEnvDiskFail [] fsFresh 1 2 false [5]
      (by decide) (by decide) (by decide) (by decide) (by decide)).1,
    (mail_store_message_rollback storeEnvDiskFail [] fsFresh 1 2 false [5]
      (by decide) (by decide) (by decide) (by decide) (by decide)).2.1,
    (mail_store_message_rollback storeEnvDiskFail [] fsFresh 1 2 false [5]
      (by decide) (by decide) (by decide) (by decide) (by decide)).2.2.2.1⟩

def moveEnvOk : MoveEnv := ⟨true, false, true⟩

/-- C8 witness: a move whose source folder does not match returns 0 and
leaves the row unchanged; a matching move returns 1. -/
theorem mail_move_message_single_row_witness :
    ((mail_move_message moveEnvOk [⟨1, 2, 3⟩] 1 2 9 4).ret = 0 ∧
      (mail_move_message moveEnvOk [⟨1, 2, 3⟩] 1 2 9 4).db = [⟨1, 2, 3⟩]) ∧
    (mail_move_message moveEnvOk [⟨1, 2, 3⟩] 1 2 3 4).ret = 1 :=
  ⟨⟨((mail_move_message_single_row moveEnvOk [⟨1, 2, 3⟩] 1 2 9 4
          (by decide) (by decide)).1 (by decide)).1,
      ((mail_move_message_single_row moveEnvOk [⟨1, 2, 3⟩] 1 2 9 4
          (by decide) (by decide)).1 (by decide)).2.1⟩,
    ((mail_move_message_single_row moveEnvOk [⟨1, 2, 3⟩] 1 2 3 4
        (by decide) (by decide)).2.1 (by decide) (by decide)).1⟩

end Magma